import Mathlib

/-!
Verification of the JUPAS game-theory analysis engine
(`jupas_game_theory_tool.py`) against its specification.

The Python class `JUPASAnalyzer` is shallowly embedded: the analyzer's
attributes become the fields of `AnalyzerState`; the Python `float`
arithmetic is modelled over `ℚ`; Python's `int(...)` truncation is
`pyInt`; Python's `//` floor division is `Int.fdiv`; code that can raise
(`ZeroDivisionError`, `ValueError`, `IndexError`) returns `Except Err`,
or — for the mutating `set_parameters` / `_calculate_derived_quantities`
paths — returns the mutated object state together with an optional raised
error, matching Python's exception semantics where the object keeps the
mutations made before the `raise`.
-/

/-- The error kinds the Python code can raise. -/
inductive Err where
  | valueOrdering      -- ValueError: Programme values must satisfy V_A > V_B > V_C
  | seatProportion     -- ValueError: Seat proportions must sum to 1
  | unknownParameter   -- ValueError: Unknown parameter
  | divisionByZero     -- ZeroDivisionError
  | indexError         -- IndexError from list indexing
  deriving DecidableEq

/-- Python `int(x)` applied to a real value: truncation toward zero.  For a
rational `q` with positive denominator this is the truncating division of
the numerator by the denominator. -/
def pyInt (q : ℚ) : ℤ := Int.tdiv q.num q.den

/-- `True` on `Except.ok`, `False` on `Except.error`. -/
def okB {α : Type} : Except Err α → Bool
  | .ok _ => true
  | .error _ => false

/-- The attributes of a `JUPASAnalyzer` instance: the raw parameters set in
`reset_parameters` plus the derived quantities that
`_calculate_derived_quantities` stores back onto the object. -/
structure AnalyzerState where
  N : ℤ
  S : ℤ
  group_A_prop : ℚ
  group_B_prop : ℚ
  V_A : ℚ
  V_B : ℚ
  V_C : ℚ
  seat_prop_A : ℚ
  seat_prop_B : ℚ
  seat_prop_C : ℚ
  prog_sizes : List ℤ
  size_dist_A : List ℚ
  size_dist_B : List ℚ
  size_dist_C : List ℚ
  n_A : ℤ
  n_B : ℤ
  S_A : ℤ
  S_B : ℤ
  S_C : ℤ
  deriving DecidableEq

/-- `_calculate_derived_quantities` (source lines 44-61): stores the derived
group sizes and seat counts onto the object, then validates the value
ordering and the seat-proportion sum.  The derived fields are assigned
before any `raise`, so the returned state carries them even when an error
is reported (second component `some e`). -/
def calculate_derived_quantities (s : AnalyzerState) : AnalyzerState × Option Err :=
  let n_A := pyInt ((s.N : ℚ) * s.group_A_prop)
  let n_B := s.N - n_A
  let S_A := pyInt ((s.S : ℚ) * s.seat_prop_A)
  let S_B := pyInt ((s.S : ℚ) * s.seat_prop_B)
  let S_C := s.S - S_A - S_B
  let s' := { s with n_A := n_A, n_B := n_B, S_A := S_A, S_B := S_B, S_C := S_C }
  if ¬ (s'.V_A > s'.V_B ∧ s'.V_B > s'.V_C) then (s', some .valueOrdering)
  else if 1/100 < |s'.seat_prop_A + s'.seat_prop_B + s'.seat_prop_C - 1| then
    (s', some .seatProportion)
  else (s', none)

/-- The raw attribute values installed by `reset_parameters` (before the
call to `_calculate_derived_quantities`), with the raw parameters
replaceable; the derived fields start at a placeholder value. -/
def baseState (N S : ℤ) (pA VA VB VC sA sB sC : ℚ) : AnalyzerState :=
  { N := N, S := S, group_A_prop := pA, group_B_prop := 1 - pA,
    V_A := VA, V_B := VB, V_C := VC,
    seat_prop_A := sA, seat_prop_B := sB, seat_prop_C := sC,
    prog_sizes := [20, 50, 100],
    size_dist_A := [2/5, 2/5, 1/5], size_dist_B := [2/5, 2/5, 1/5],
    size_dist_C := [2/5, 2/5, 1/5],
    n_A := 0, n_B := 0, S_A := 0, S_B := 0, S_C := 0 }

/-- Build an analyzer state from raw parameters by running
`_calculate_derived_quantities`, as `reset_parameters`/`set_parameters` do;
the second component reports a validation error if one was raised. -/
def mkState (N S : ℤ) (pA VA VB VC sA sB sC : ℚ) : AnalyzerState × Option Err :=
  calculate_derived_quantities (baseState N S pA VA VB VC sA sB sC)

/-- The default analyzer state produced by `reset_parameters`
(source lines 15-42). -/
def defaultState : AnalyzerState :=
  (mkState 10000 9000 (3/10) 3 2 1 (1/3) (1/3) (1/3)).1

/-- One keyword argument of `set_parameters`: either an assignment to one of
the analyzer's (settable) attributes, or an unknown keyword, which makes
`set_parameters` raise `ValueError` at the point the key is processed. -/
inductive ParamAssign where
  | assign_N (v : ℤ)
  | assign_S (v : ℤ)
  | assign_group_A_prop (v : ℚ)
  | assign_group_B_prop (v : ℚ)
  | assign_V_A (v : ℚ)
  | assign_V_B (v : ℚ)
  | assign_V_C (v : ℚ)
  | assign_seat_prop_A (v : ℚ)
  | assign_seat_prop_B (v : ℚ)
  | assign_seat_prop_C (v : ℚ)
  | unknownKey
  deriving DecidableEq

/-- The assignment loop of `set_parameters` (source lines 65-69): arguments
are applied one at a time in iteration order; an unknown key raises
immediately, keeping all earlier assignments. -/
def runAssigns : AnalyzerState → List ParamAssign → AnalyzerState × Option Err
  | s, [] => (s, none)
  | s, .unknownKey :: _ => (s, some .unknownParameter)
  | s, .assign_N v :: rest => runAssigns { s with N := v } rest
  | s, .assign_S v :: rest => runAssigns { s with S := v } rest
  | s, .assign_group_A_prop v :: rest => runAssigns { s with group_A_prop := v } rest
  | s, .assign_group_B_prop v :: rest => runAssigns { s with group_B_prop := v } rest
  | s, .assign_V_A v :: rest => runAssigns { s with V_A := v } rest
  | s, .assign_V_B v :: rest => runAssigns { s with V_B := v } rest
  | s, .assign_V_C v :: rest => runAssigns { s with V_C := v } rest
  | s, .assign_seat_prop_A v :: rest => runAssigns { s with seat_prop_A := v } rest
  | s, .assign_seat_prop_B v :: rest => runAssigns { s with seat_prop_B := v } rest
  | s, .assign_seat_prop_C v :: rest => runAssigns { s with seat_prop_C := v } rest

/-- `set_parameters` (source lines 63-71): assign every keyword argument in
order, then re-derive and validate.  The returned state is the analyzer's
state after the call, which keeps the already-made assignments (and the
freshly stored derived quantities) even when an error is raised. -/
def set_parameters (s : AnalyzerState) (args : List ParamAssign) : AnalyzerState × Option Err :=
  match runAssigns s args with
  | (s', some e) => (s', some e)
  | (s', none) => calculate_derived_quantities s'

/-- Occupancy tag of the Group-A result: `complete` / `partial` in the
source. -/
inductive Occupancy where
  | complete
  | incomplete
  deriving DecidableEq

/-- One entry of the `mixed_strategy` list built in `analyze_group_A`
(the constant `programme_type: 'A'` key is omitted). -/
structure MixedStrategyEntry where
  size : ℤ
  probability : ℚ
  admission_prob : ℚ
  expected_payoff : ℚ
  deriving DecidableEq

/-- The dictionary returned by `analyze_group_A`; `mixed_strategy` is only
present (`some`) in the complete-occupancy branch. -/
structure GroupAResult where
  occupancy : Occupancy
  admission_rate : ℚ
  expected_payoff : ℚ
  mixed_strategy : Option (List MixedStrategyEntry)
  all_admitted : Bool
  deriving DecidableEq

/-- The loop of source lines 90-103: for each programme size, look up the
matching entry of the size distribution (an exhausted distribution list is
an `IndexError`, a zero size a `ZeroDivisionError`), compute
`n_progs = int(S_A * dist / size)` and keep the entries with
`n_progs > 0`. -/
def groupAMixedAux (SA : ℤ) (VA : ℚ) : List ℤ → List ℚ → Except Err (List MixedStrategyEntry)
  | [], _ => .ok []
  | _ :: _, [] => .error .indexError
  | size :: sizes, d :: dists =>
    if size = 0 then .error .divisionByZero
    else do
      let n_progs := pyInt ((SA : ℚ) * d / (size : ℚ))
      let rest ← groupAMixedAux SA VA sizes dists
      .ok (if 0 < n_progs then
        { size := size, probability := d, admission_prob := 1,
          expected_payoff := 1 * VA } :: rest
      else rest)

/-- `analyze_group_A` (source lines 73-115). -/
def analyze_group_A (s : AnalyzerState) : Except Err GroupAResult :=
  if s.n_A ≤ s.S_A then do
    let ms ← groupAMixedAux s.S_A s.V_A s.prog_sizes s.size_dist_A
    .ok { occupancy := .complete, admission_rate := 1, expected_payoff := s.V_A,
          mixed_strategy := some ms, all_admitted := true }
  else
    if s.n_A = 0 then .error .divisionByZero
    else
      .ok { occupancy := .incomplete,
            admission_rate := (s.S_A : ℚ) / (s.n_A : ℚ),
            expected_payoff := (s.S_A : ℚ) / (s.n_A : ℚ) * s.V_A,
            mixed_strategy := none, all_admitted := false }

/-- The interior part of the dictionary returned by
`analyze_group_B_mse_condition`, present only when `mse_exists`. -/
structure MseInterior where
  f : ℚ
  P_B : ℚ
  P_C : ℚ
  E_B : ℚ
  E_C : ℚ
  indifference_holds : Bool
  deriving DecidableEq

/-- The dictionary returned by `analyze_group_B_mse_condition`. -/
structure MseResult where
  K : ℚ
  K_lower : ℚ
  K_upper : ℚ
  mse_exists : Bool
  interior : Option MseInterior
  deriving DecidableEq

/-- Comparison `p > 1` where `p` may be the source's `float('inf')`
(encoded as `none`): infinity exceeds 1. -/
def gtOne : Option ℚ → Bool
  | none => true
  | some q => decide (1 < q)

/-- The raw indifference fraction `f = K / (1 + K)` (source line 141). -/
def rawEquilibriumF (K : ℚ) : ℚ := K / (1 + K)

/-- Source lines 141-154: raw `f`, the capacity probabilities at the raw
`f` (`float('inf')` when the guard `f > 0` resp. `f < 1` fails), and the
two clamping steps.  Note both `P_B` and `P_C` are computed at the raw `f`
before either clamp is applied. -/
def interiorF (s : AnalyzerState) (K : ℚ) : ℚ :=
  let f0 := rawEquilibriumF K
  let P_B0 : Option ℚ := if 0 < f0 then some ((s.S_B : ℚ) / ((s.n_B : ℚ) * f0)) else none
  let P_C0 : Option ℚ := if f0 < 1 then some ((s.S_C : ℚ) / ((s.n_B : ℚ) * (1 - f0))) else none
  let f1 := if gtOne P_B0 then max f0 ((s.S_B : ℚ) / (s.n_B : ℚ)) else f0
  if gtOne P_C0 then min f1 (1 - (s.S_C : ℚ) / (s.n_B : ℚ)) else f1

/-- Source lines 141-165: the final (possibly clamped) fraction, the
probabilities recomputed from it (with `0` substituted when the guard
`f > 0` resp. `f < 1` fails — and with no cap at 1), the expected payoffs
and the indifference flag. -/
def mseInterior (s : AnalyzerState) (K : ℚ) : MseInterior :=
  let f2 := interiorF s K
  let PB := if 0 < f2 then (s.S_B : ℚ) / ((s.n_B : ℚ) * f2) else 0
  let PC := if f2 < 1 then (s.S_C : ℚ) / ((s.n_B : ℚ) * (1 - f2)) else 0
  { f := f2, P_B := PB, P_C := PC, E_B := PB * s.V_B, E_C := PC * s.V_C,
    indifference_holds := decide (|PB * s.V_B - PC * s.V_C| < 1/1000) }

/-- `analyze_group_B_mse_condition` (source lines 117-167).  `V_C = 0`
raises computing `K`; inside the band the raw `f` lies strictly between 0
and 1, so Python's first division (`S_B / (n_B * f)`) raises exactly when
`n_B = 0`. -/
def analyze_group_B_mse_condition (s : AnalyzerState) : Except Err MseResult :=
  if s.V_C = 0 then .error .divisionByZero
  else
    let K := s.V_B / s.V_C
    if (3 : ℚ)/4 < K ∧ K < 4/3 then
      if s.n_B = 0 then .error .divisionByZero
      else
        .ok { K := K, K_lower := 3/4, K_upper := 4/3,
              mse_exists := decide ((3 : ℚ)/4 < K ∧ K < 4/3),
              interior := some (mseInterior s K) }
    else
      .ok { K := K, K_lower := 3/4, K_upper := 4/3,
            mse_exists := decide ((3 : ℚ)/4 < K ∧ K < 4/3),
            interior := none }

/-- The clamping of source lines 141-154 as a standalone function, with the
guards `f > 0`, `f < 1` dropped (they always hold inside the band): the
`P_C > 1` test uses the probability computed at the raw `f`, even when the
first clamp has already raised `f`. -/
def clampedF (s : AnalyzerState) : ℚ :=
  let K := s.V_B / s.V_C
  let f0 := K / (1 + K)
  let f1 := if 1 < (s.S_B : ℚ) / ((s.n_B : ℚ) * f0)
    then max f0 ((s.S_B : ℚ) / (s.n_B : ℚ)) else f0
  if 1 < (s.S_C : ℚ) / ((s.n_B : ℚ) * (1 - f0))
  then min f1 (1 - (s.S_C : ℚ) / (s.n_B : ℚ)) else f1

/-- Following the spec's words (not the source): the same clamping but with
the `P_C > 1` test re-evaluated at the possibly-raised `f`. -/
def clampedF_asSpecified (s : AnalyzerState) : ℚ :=
  let K := s.V_B / s.V_C
  let f0 := K / (1 + K)
  let f1 := if 1 < (s.S_B : ℚ) / ((s.n_B : ℚ) * f0)
    then max f0 ((s.S_B : ℚ) / (s.n_B : ℚ)) else f0
  if 1 < (s.S_C : ℚ) / ((s.n_B : ℚ) * (1 - f1))
  then min f1 (1 - (s.S_C : ℚ) / (s.n_B : ℚ)) else f1

/-- The dictionary returned by `_analyze_asymmetric_threshold`. -/
structure ThresholdResult where
  threshold_ratio_val : ℚ
  condition_small_x : Bool
  condition_half_x : Bool
  hard_to_achieve : Bool
  deriving DecidableEq

/-- `_analyze_asymmetric_threshold` (source lines 215-248).  Divisions, in
Python evaluation order: `V_B / V_C`, then `S_B / (n_B - 1)`, `S_C / 1`
(never raises), `S_B / (n_B - n_B // 2)`, `S_C / (n_B // 2)`; a zero
divisor raises `ZeroDivisionError` at that point. -/
def analyze_asymmetric_threshold (s : AnalyzerState) : Except Err ThresholdResult :=
  if s.V_C = 0 then .error .divisionByZero
  else
    let tr := s.V_B / s.V_C
    let x_small : ℤ := 1
    if s.n_B - x_small = 0 then .error .divisionByZero
    else
      let P_B_small := min 1 ((s.S_B : ℚ) / ((s.n_B - x_small : ℤ) : ℚ))
      let P_C_small := min 1 ((s.S_C : ℚ) / ((x_small : ℤ) : ℚ))
      let condition_small := decide (tr * P_B_small < P_C_small)
      let x_half := Int.fdiv s.n_B 2
      if s.n_B - x_half = 0 then .error .divisionByZero
      else if x_half = 0 then .error .divisionByZero
      else
        let P_B_half := min 1 ((s.S_B : ℚ) / ((s.n_B - x_half : ℤ) : ℚ))
        let P_C_half := min 1 ((s.S_C : ℚ) / ((x_half : ℤ) : ℚ))
        let condition_half := decide (tr * P_B_half < P_C_half)
        .ok { threshold_ratio_val := tr,
              condition_small_x := condition_small,
              condition_half_x := condition_half,
              hard_to_achieve := !(condition_small || condition_half) }

/-- The `preferred_corner` tag: `'Type B'` / `'Type C'` / `'indifferent'`
in the source. -/
inductive PreferredCorner where
  | typeB
  | typeC
  | indifferent
  deriving DecidableEq

/-- The `equilibrium_type` tag of the corner analysis: `'corner_B'` /
`'corner_C'` / `'multiple_corners'` in the source. -/
inductive EquilibriumType where
  | corner_B
  | corner_C
  | multiple_corners
  deriving DecidableEq

/-- The dictionary returned by `analyze_group_B_corner_solution`. -/
structure CornerResult where
  P_B_symmetric : ℚ
  E_B_symmetric : ℚ
  P_C_symmetric : ℚ
  E_C_symmetric : ℚ
  preferred_corner : PreferredCorner
  equilibrium_type : EquilibriumType
  admission_rate : ℚ
  expected_payoff : ℚ
  threshold_analysis : ThresholdResult
  deriving DecidableEq

/-- `analyze_group_B_corner_solution` (source lines 169-213).  `n_B = 0`
raises at `S_B / n_B`; the asymmetric-threshold probe is evaluated after
the corner comparison (its exception propagates). -/
def analyze_group_B_corner_solution (s : AnalyzerState) : Except Err CornerResult :=
  if s.n_B = 0 then .error .divisionByZero
  else
    let P_B_all := min 1 ((s.S_B : ℚ) / (s.n_B : ℚ))
    let E_B_all := P_B_all * s.V_B
    let P_C_all := min 1 ((s.S_C : ℚ) / (s.n_B : ℚ))
    let E_C_all := P_C_all * s.V_C
    match analyze_asymmetric_threshold s with
    | .error e => .error e
    | .ok ta =>
      if E_C_all < E_B_all then
        .ok { P_B_symmetric := P_B_all, E_B_symmetric := E_B_all,
              P_C_symmetric := P_C_all, E_C_symmetric := E_C_all,
              preferred_corner := .typeB, equilibrium_type := .corner_B,
              admission_rate := P_B_all, expected_payoff := E_B_all,
              threshold_analysis := ta }
      else if E_B_all < E_C_all then
        .ok { P_B_symmetric := P_B_all, E_B_symmetric := E_B_all,
              P_C_symmetric := P_C_all, E_C_symmetric := E_C_all,
              preferred_corner := .typeC, equilibrium_type := .corner_C,
              admission_rate := P_C_all, expected_payoff := E_C_all,
              threshold_analysis := ta }
      else
        .ok { P_B_symmetric := P_B_all, E_B_symmetric := E_B_all,
              P_C_symmetric := P_C_all, E_C_symmetric := E_C_all,
              preferred_corner := .indifferent, equilibrium_type := .multiple_corners,
              admission_rate := P_B_all, expected_payoff := E_B_all,
              threshold_analysis := ta }

/-- The `issue` tag of `suggest_value_adjustment`. -/
inductive SuggestIssue where
  | K_too_low
  | K_too_high
  | mse_ok
  deriving DecidableEq

/-- The dictionary returned by `suggest_value_adjustment` (the purely
textual `current_range` / `suggestion` entries are not modelled). -/
structure Suggestion where
  issue : SuggestIssue
  target_K : ℚ
  deriving DecidableEq

/-- `suggest_value_adjustment` (source lines 250-282); it reads no analyzer
attribute, only its `current_K` argument. -/
def suggest_value_adjustment (current_K : ℚ) : Suggestion :=
  if current_K ≤ 3/4 then { issue := .K_too_low, target_K := (3/4 + 4/3) / 2 }
  else if 4/3 ≤ current_K then { issue := .K_too_high, target_K := (3/4 + 4/3) / 2 }
  else { issue := .mse_ok, target_K := current_K }

/-- `analyze_group_A` as a method call: the returned value together with
the analyzer state after the call (the method assigns no attribute). -/
def analyze_group_A_st (s : AnalyzerState) : Except Err (GroupAResult × AnalyzerState) :=
  (analyze_group_A s).map (fun r => (r, s))

/-- `analyze_group_B_mse_condition` as a method call (assigns no
attribute). -/
def analyze_group_B_mse_condition_st (s : AnalyzerState) :
    Except Err (MseResult × AnalyzerState) :=
  (analyze_group_B_mse_condition s).map (fun r => (r, s))

/-- `analyze_group_B_corner_solution` as a method call (assigns no
attribute). -/
def analyze_group_B_corner_solution_st (s : AnalyzerState) :
    Except Err (CornerResult × AnalyzerState) :=
  (analyze_group_B_corner_solution s).map (fun r => (r, s))

/-- `suggest_value_adjustment` as a method call (assigns no attribute). -/
def suggest_value_adjustment_st (s : AnalyzerState) (current_K : ℚ) :
    Suggestion × AnalyzerState :=
  (suggest_value_adjustment current_K, s)

/-- A method call is pure: when it returns, the analyzer state is the one
it was called on, and invoking it again from the post-call state returns
the bit-identical result. -/
def pureCall {R : Type} (op : AnalyzerState → Except Err (R × AnalyzerState))
    (s : AnalyzerState) : Prop :=
  match op s with
  | .error _ => True
  | .ok rs => rs.2 = s ∧ op rs.2 = .ok rs

/-! ### Concrete analyzer states used to instantiate and to refute claims

Each state is written out explicitly (including its derived fields); a
companion lemma below certifies that it is exactly what
`_calculate_derived_quantities` produces from its raw parameters with no
validation error, i.e. a valid `ParameterSet` as the code itself checks
validity. -/

/-- The default state written out: `N = 10000`, `S = 9000`, top 30%,
values (3, 2, 1), equal seat proportions. -/
def defaultStateE : AnalyzerState :=
  { N := 10000, S := 9000, group_A_prop := 3/10, group_B_prop := 7/10,
    V_A := 3, V_B := 2, V_C := 1,
    seat_prop_A := 1/3, seat_prop_B := 1/3, seat_prop_C := 1/3,
    prog_sizes := [20, 50, 100],
    size_dist_A := [2/5, 2/5, 1/5], size_dist_B := [2/5, 2/5, 1/5],
    size_dist_C := [2/5, 2/5, 1/5],
    n_A := 3000, n_B := 7000, S_A := 3000, S_B := 3000, S_C := 3000 }

/-- Valid state with `V = (1, -3, -4)`, so `K = V_B / V_C` is exactly the
lower band edge `3/4`. -/
def b1state : AnalyzerState :=
  { defaultStateE with V_A := 1, V_B := -3, V_C := -4 }

/-- The result of the MSE analysis at `b1state`. -/
def b1res : MseResult :=
  { K := 3/4, K_lower := 3/4, K_upper := 4/3, mse_exists := false, interior := none }

/-- Valid state with `group_A_prop = 1`, hence a degenerate market
`n_B = 0`, and `K = 6/5` inside the band. -/
def c2state : AnalyzerState :=
  { defaultStateE with
      group_A_prop := 1, group_B_prop := 0,
      V_A := 2, V_B := 6/5, n_A := 10000, n_B := 0 }

/-- Valid state with all seats of Type A, hence a degenerate market
`S_B = S_C = 0` with `n_B = 7000 > 0`, and `K = 6/5` inside the band. -/
def c2bstate : AnalyzerState :=
  { defaultStateE with
      V_A := 2, V_B := 6/5,
      seat_prop_A := 1, seat_prop_B := 0, seat_prop_C := 0,
      S_A := 9000, S_B := 0, S_C := 0 }

/-- Valid state (`N = 40`, `S = 32`, half in Group A, seat proportions
(5/16, 3/8, 5/16), values (2, 5/4, 1)): `n_B = 20`, `S_B = 12`,
`S_C = 10`, `K = 5/4` inside the band, and both clamps fire. -/
def c3state : AnalyzerState :=
  { N := 40, S := 32, group_A_prop := 1/2, group_B_prop := 1/2,
    V_A := 2, V_B := 5/4, V_C := 1,
    seat_prop_A := 5/16, seat_prop_B := 3/8, seat_prop_C := 5/16,
    prog_sizes := [20, 50, 100],
    size_dist_A := [2/5, 2/5, 1/5], size_dist_B := [2/5, 2/5, 1/5],
    size_dist_C := [2/5, 2/5, 1/5],
    n_A := 20, n_B := 20, S_A := 10, S_B := 12, S_C := 10 }

/-- The interior result at `c3state`: both clamps fire
(`f` goes `5/9 → 3/5 → 1/2`) and the recomputed `P_B = 6/5` exceeds 1. -/
def c3int : MseInterior :=
  { f := 1/2, P_B := 6/5, P_C := 1, E_B := 3/2, E_C := 1,
    indifference_holds := false }

/-- The MSE result at `c3state`. -/
def c3res : MseResult :=
  { K := 5/4, K_lower := 3/4, K_upper := 4/3, mse_exists := true,
    interior := some c3int }

/-- Valid state (`N = 20`, `S = 16`, half in Group A, seat proportions
(5/16, 1/2, 3/16), values (2, 5/4, 1)): `n_B = 10`, `S_B = 8`, `S_C = 3`,
`K = 5/4` inside the band; only the `P_B` clamp fires, raising `f` to
`4/5`, at which point `P_C` would exceed 1 — but the code's `P_C > 1` test
was taken at the raw `f = 5/9`. -/
def c4state : AnalyzerState :=
  { N := 20, S := 16, group_A_prop := 1/2, group_B_prop := 1/2,
    V_A := 2, V_B := 5/4, V_C := 1,
    seat_prop_A := 5/16, seat_prop_B := 1/2, seat_prop_C := 3/16,
    prog_sizes := [20, 50, 100],
    size_dist_A := [2/5, 2/5, 1/5], size_dist_B := [2/5, 2/5, 1/5],
    size_dist_C := [2/5, 2/5, 1/5],
    n_A := 10, n_B := 10, S_A := 5, S_B := 8, S_C := 3 }

/-- The interior result at `c4state`: `f = 4/5` (clamped up only), and the
recomputed `P_C = 3/2` exceeds 1. -/
def c4int : MseInterior :=
  { f := 4/5, P_B := 1, P_C := 3/2, E_B := 5/4, E_C := 3/2,
    indifference_holds := false }

/-- The MSE result at `c4state`. -/
def c4res : MseResult :=
  { K := 5/4, K_lower := 3/4, K_upper := 4/3, mse_exists := true,
    interior := some c4int }

/-- Valid state (`N = 20`, `S = 12`, half in Group A, equal seat
proportions, values (2, 6/5, 1)): `n_B = 10`, `S_B = S_C = 4`,
`K = 6/5` inside the band, no clamping (`f = 6/11`). -/
def w5state : AnalyzerState :=
  { N := 20, S := 12, group_A_prop := 1/2, group_B_prop := 1/2,
    V_A := 2, V_B := 6/5, V_C := 1,
    seat_prop_A := 1/3, seat_prop_B := 1/3, seat_prop_C := 1/3,
    prog_sizes := [20, 50, 100],
    size_dist_A := [2/5, 2/5, 1/5], size_dist_B := [2/5, 2/5, 1/5],
    size_dist_C := [2/5, 2/5, 1/5],
    n_A := 10, n_B := 10, S_A := 4, S_B := 4, S_C := 4 }

/-- The interior result at `w5state`: unclamped, indifference holds. -/
def w5int : MseInterior :=
  { f := 6/11, P_B := 11/15, P_C := 22/25, E_B := 22/25, E_C := 22/25,
    indifference_holds := true }

/-- The MSE result at `w5state`. -/
def w5res : MseResult :=
  { K := 6/5, K_lower := 3/4, K_upper := 4/3, mse_exists := true,
    interior := some w5int }

/-- Valid state (`N = 20`, `S = 16`, half in Group A, seat proportions
(7/16, 3/16, 3/8), values (3, 2, 1)): `n_B = 10`, `S_B = 3`, `S_C = 6`,
so the symmetric corner payoffs tie exactly:
`E_B_all = (3/10)·2 = 3/5 = (6/10)·1 = E_C_all`. -/
def tieState : AnalyzerState :=
  { N := 20, S := 16, group_A_prop := 1/2, group_B_prop := 1/2,
    V_A := 3, V_B := 2, V_C := 1,
    seat_prop_A := 7/16, seat_prop_B := 3/16, seat_prop_C := 3/8,
    prog_sizes := [20, 50, 100],
    size_dist_A := [2/5, 2/5, 1/5], size_dist_B := [2/5, 2/5, 1/5],
    size_dist_C := [2/5, 2/5, 1/5],
    n_A := 10, n_B := 10, S_A := 7, S_B := 3, S_C := 6 }

/-- The corner result at `tieState`: a tie resolved to the indifferent /
multiple-corners tags, with `P_B_all` and `E_B_all` reported. -/
def tieRes : CornerResult :=
  { P_B_symmetric := 3/10, E_B_symmetric := 3/5,
    P_C_symmetric := 3/5, E_C_symmetric := 3/5,
    preferred_corner := .indifferent, equilibrium_type := .multiple_corners,
    admission_rate := 3/10, expected_payoff := 3/5,
    threshold_analysis :=
      { threshold_ratio_val := 2, condition_small_x := true,
        condition_half_x := false, hard_to_achieve := false } }

/-- Valid state with `n_B = 1` (`N = 2`, half in Group A): the asymmetric
probe divides by `n_B - 1 = 0`. -/
def wit10state : AnalyzerState :=
  { N := 2, S := 12, group_A_prop := 1/2, group_B_prop := 1/2,
    V_A := 2, V_B := 6/5, V_C := 1,
    seat_prop_A := 1/4, seat_prop_B := 1/2, seat_prop_C := 1/4,
    prog_sizes := [20, 50, 100],
    size_dist_A := [2/5, 2/5, 1/5], size_dist_B := [2/5, 2/5, 1/5],
    size_dist_C := [2/5, 2/5, 1/5],
    n_A := 1, n_B := 1, S_A := 3, S_B := 6, S_C := 3 }

/-- Valid state with values (2, 1, 0): `V_C = 0`, `n_B = 7000`. -/
def cexC10state : AnalyzerState :=
  { defaultStateE with V_A := 2, V_B := 1, V_C := 0 }

/-- The interior result at `c2bstate`: zero payoffs but a nonzero
equilibrium fraction `f = 6/11`. -/
def c2bint : MseInterior :=
  { f := 6/11, P_B := 0, P_C := 0, E_B := 0, E_C := 0,
    indifference_holds := true }

/-- The MSE result at `c2bstate`. -/
def c2bres : MseResult :=
  { K := 6/5, K_lower := 3/4, K_upper := 4/3, mse_exists := true,
    interior := some c2bint }

/-- The Group-A result at the default state: complete occupancy. -/
def gAres : GroupAResult :=
  { occupancy := .complete, admission_rate := 1, expected_payoff := 3,
    mixed_strategy := some
      [ { size := 20, probability := 2/5, admission_prob := 1, expected_payoff := 3 },
        { size := 50, probability := 2/5, admission_prob := 1, expected_payoff := 3 },
        { size := 100, probability := 1/5, admission_prob := 1, expected_payoff := 3 } ],
    all_admitted := true }

/-! ### Evaluation lemmas for the concrete states -/

theorem pyInt_ofNat (n : ℕ) : pyInt (OfNat.ofNat n) = OfNat.ofNat n := by
  simp [pyInt, Rat.num_ofNat, Rat.den_ofNat, Int.tdiv_one]

theorem defaultState_eq : defaultState = defaultStateE := by
  simp only [defaultState, mkState, calculate_derived_quantities, baseState, defaultStateE]
  norm_num [pyInt]

theorem b1state_valid :
    mkState 10000 9000 (3/10) 1 (-3) (-4) (1/3) (1/3) (1/3) = (b1state, none) := by
  simp only [mkState, calculate_derived_quantities, baseState, b1state, defaultStateE]
  norm_num [pyInt]

theorem b1state_eval : analyze_group_B_mse_condition b1state = .ok b1res := by
  simp only [analyze_group_B_mse_condition, b1state, defaultStateE, b1res]
  norm_num

theorem c2state_valid :
    mkState 10000 9000 1 2 (6/5) 1 (1/3) (1/3) (1/3) = (c2state, none) := by
  simp only [mkState, calculate_derived_quantities, baseState, c2state, defaultStateE]
  norm_num [pyInt]

theorem c2state_eval :
    analyze_group_B_mse_condition c2state = .error .divisionByZero := by
  simp only [analyze_group_B_mse_condition, c2state, defaultStateE]
  norm_num

theorem c2state_corner_eval :
    analyze_group_B_corner_solution c2state = .error .divisionByZero := by
  simp only [analyze_group_B_corner_solution, c2state, defaultStateE]
  norm_num

theorem c2bstate_valid :
    mkState 10000 9000 (3/10) 2 (6/5) 1 1 0 0 = (c2bstate, none) := by
  simp only [mkState, calculate_derived_quantities, baseState, c2bstate, defaultStateE]
  norm_num [pyInt]

theorem c2bstate_eval : analyze_group_B_mse_condition c2bstate = .ok c2bres := by
  simp only [analyze_group_B_mse_condition, mseInterior, interiorF, rawEquilibriumF,
    gtOne, c2bstate, defaultStateE, c2bres, c2bint]
  norm_num

theorem c3state_valid :
    mkState 40 32 (1/2) 2 (5/4) 1 (5/16) (3/8) (5/16) = (c3state, none) := by
  simp only [mkState, calculate_derived_quantities, baseState, c3state]
  norm_num [pyInt]

theorem c3state_eval : analyze_group_B_mse_condition c3state = .ok c3res := by
  simp only [analyze_group_B_mse_condition, mseInterior, interiorF, rawEquilibriumF,
    gtOne, c3state, c3res, c3int]
  norm_num [abs_lt]

theorem c4state_valid :
    mkState 20 16 (1/2) 2 (5/4) 1 (5/16) (1/2) (3/16) = (c4state, none) := by
  simp only [mkState, calculate_derived_quantities, baseState, c4state]
  norm_num [pyInt]

theorem c4state_eval : analyze_group_B_mse_condition c4state = .ok c4res := by
  simp only [analyze_group_B_mse_condition, mseInterior, interiorF, rawEquilibriumF,
    gtOne, c4state, c4res, c4int]
  norm_num [abs_lt]

theorem c4state_asSpecified_eval : clampedF_asSpecified c4state = 7/10 := by
  simp only [clampedF_asSpecified, c4state]
  norm_num

theorem w5state_valid :
    mkState 20 12 (1/2) 2 (6/5) 1 (1/3) (1/3) (1/3) = (w5state, none) := by
  simp only [mkState, calculate_derived_quantities, baseState, w5state]
  norm_num [pyInt]

theorem w5state_eval : analyze_group_B_mse_condition w5state = .ok w5res := by
  simp only [analyze_group_B_mse_condition, mseInterior, interiorF, rawEquilibriumF,
    gtOne, w5state, w5res, w5int]
  norm_num [abs_lt]

theorem tieState_valid :
    mkState 20 16 (1/2) 3 2 1 (7/16) (3/16) (3/8) = (tieState, none) := by
  simp only [mkState, calculate_derived_quantities, baseState, tieState]
  norm_num [pyInt]

theorem tieState_eval : analyze_group_B_corner_solution tieState = .ok tieRes := by
  simp only [analyze_group_B_corner_solution, analyze_asymmetric_threshold,
    tieState, tieRes]
  norm_num [Int.fdiv]

theorem wit10state_valid :
    mkState 2 12 (1/2) 2 (6/5) 1 (1/4) (1/2) (1/4) = (wit10state, none) := by
  simp only [mkState, calculate_derived_quantities, baseState, wit10state]
  norm_num [pyInt]

theorem wit10state_eval :
    analyze_asymmetric_threshold wit10state = .error .divisionByZero := by
  simp only [analyze_asymmetric_threshold, wit10state]
  norm_num

theorem cexC10state_valid :
    mkState 10000 9000 (3/10) 2 1 0 (1/3) (1/3) (1/3) = (cexC10state, none) := by
  simp only [mkState, calculate_derived_quantities, baseState, cexC10state, defaultStateE]
  norm_num [pyInt]

theorem cexC10state_eval :
    analyze_asymmetric_threshold cexC10state = .error .divisionByZero := by
  simp only [analyze_asymmetric_threshold, cexC10state, defaultStateE]
  norm_num

theorem groupA_default_eval : analyze_group_A defaultStateE = .ok gAres := by
  simp only [analyze_group_A, groupAMixedAux, defaultStateE, gAres]
  norm_num [pyInt]
  rfl

/-! ### Structural lemmas about the solver -/

theorem rawF_pos_lt_one {K : ℚ} (h1 : (3:ℚ)/4 < K) :
    0 < rawEquilibriumF K ∧ rawEquilibriumF K < 1 := by
  have hK : (0:ℚ) < K := by linarith
  have h1K : (0:ℚ) < 1 + K := by linarith
  constructor
  · exact div_pos hK h1K
  · rw [rawEquilibriumF, div_lt_one h1K]
    linarith

theorem mse_ok_inv {s : AnalyzerState} {r : MseResult} {i : MseInterior}
    (h : analyze_group_B_mse_condition s = .ok r) (hi : r.interior = some i) :
    s.V_C ≠ 0 ∧ s.n_B ≠ 0 ∧ (3:ℚ)/4 < s.V_B / s.V_C ∧ s.V_B / s.V_C < 4/3 ∧
      i = mseInterior s (s.V_B / s.V_C) := by
  by_cases hvc : s.V_C = 0
  · simp [analyze_group_B_mse_condition, hvc] at h
  · simp only [analyze_group_B_mse_condition, if_neg hvc] at h
    split at h
    next hK =>
      split at h
      next hnB => exact absurd h (by simp)
      next hnB =>
        have hr := (Except.ok.injEq _ _).mp h
        rw [← hr] at hi
        simp only [Option.some.injEq] at hi
        exact ⟨hvc, hnB, hK.1, hK.2, hi.symm⟩
    next hK =>
      have hr := (Except.ok.injEq _ _).mp h
      rw [← hr] at hi
      simp at hi

theorem interiorF_mem {s : AnalyzerState} {K : ℚ} (h1 : (3:ℚ)/4 < K)
    (hnB : 0 < s.n_B) (hSB : 0 ≤ s.S_B) (hSC : 0 ≤ s.S_C)
    (hsum : s.S_B + s.S_C ≤ s.n_B) :
    max 0 ((s.S_B : ℚ) / (s.n_B : ℚ)) ≤ interiorF s K ∧
      interiorF s K ≤ min 1 (1 - (s.S_C : ℚ) / (s.n_B : ℚ)) := by
  obtain ⟨hf0, hf1⟩ := rawF_pos_lt_one h1
  have hnBQ : (0:ℚ) < (s.n_B : ℚ) := by exact_mod_cast hnB
  have hSBQ : (0:ℚ) ≤ (s.S_B : ℚ) := by exact_mod_cast hSB
  have hSCQ : (0:ℚ) ≤ (s.S_C : ℚ) := by exact_mod_cast hSC
  have hsumQ : (s.S_B : ℚ) + (s.S_C : ℚ) ≤ (s.n_B : ℚ) := by exact_mod_cast hsum
  have hmax : max 0 ((s.S_B:ℚ)/(s.n_B:ℚ)) = (s.S_B:ℚ)/(s.n_B:ℚ) :=
    max_eq_right (div_nonneg hSBQ hnBQ.le)
  have hmin : min 1 (1 - (s.S_C:ℚ)/(s.n_B:ℚ)) = 1 - (s.S_C:ℚ)/(s.n_B:ℚ) :=
    min_eq_right (by have := div_nonneg hSCQ hnBQ.le; linarith)
  have hfmM : (s.S_B:ℚ)/(s.n_B:ℚ) ≤ 1 - (s.S_C:ℚ)/(s.n_B:ℚ) := by
    have h := (div_le_one hnBQ).mpr hsumQ
    rw [add_div] at h
    linarith
  rw [hmax, hmin]
  simp only [interiorF, gtOne, if_pos hf0, if_pos hf1, decide_eq_true_eq]
  by_cases hb : (1:ℚ) < (s.S_B:ℚ)/((s.n_B:ℚ) * rawEquilibriumF K) <;>
    by_cases hc : (1:ℚ) < (s.S_C:ℚ)/((s.n_B:ℚ) * (1 - rawEquilibriumF K))
  · -- both clamps would fire: impossible under S_B + S_C ≤ n_B
    exfalso
    have hB := (one_lt_div (mul_pos hnBQ hf0)).mp hb
    have hC := (one_lt_div (mul_pos hnBQ (by linarith : (0:ℚ) < 1 - rawEquilibriumF K))).mp hc
    have hid : (s.n_B:ℚ) * rawEquilibriumF K + (s.n_B:ℚ) * (1 - rawEquilibriumF K)
        = (s.n_B:ℚ) := by ring
    linarith
  · -- only the P_B clamp fires
    rw [if_pos hb, if_neg hc]
    have hC := (div_le_one (mul_pos hnBQ (by linarith : (0:ℚ) < 1 - rawEquilibriumF K))).mp
      (le_of_not_lt hc)
    have hf0le : rawEquilibriumF K ≤ 1 - (s.S_C:ℚ)/(s.n_B:ℚ) := by
      have : (s.S_C:ℚ)/(s.n_B:ℚ) ≤ 1 - rawEquilibriumF K := by
        rw [div_le_iff₀ hnBQ]
        nlinarith
      linarith
    exact ⟨le_max_right _ _, max_le hf0le hfmM⟩
  · -- only the P_C clamp fires
    rw [if_neg hb, if_pos hc]
    have hB := (div_le_one (mul_pos hnBQ hf0)).mp (le_of_not_lt hb)
    have hlow : (s.S_B:ℚ)/(s.n_B:ℚ) ≤ rawEquilibriumF K := by
      rw [div_le_iff₀ hnBQ]
      nlinarith
    exact ⟨le_min hlow hfmM, min_le_right _ _⟩
  · -- no clamp fires
    rw [if_neg hb, if_neg hc]
    have hB := (div_le_one (mul_pos hnBQ hf0)).mp (le_of_not_lt hb)
    have hC := (div_le_one (mul_pos hnBQ (by linarith : (0:ℚ) < 1 - rawEquilibriumF K))).mp
      (le_of_not_lt hc)
    constructor
    · rw [div_le_iff₀ hnBQ]
      nlinarith
    · have : (s.S_C:ℚ)/(s.n_B:ℚ) ≤ 1 - rawEquilibriumF K := by
        rw [div_le_iff₀ hnBQ]
        nlinarith
      linarith

/-! ### Claim theorems -/

/-- C1: whenever `analyze_group_B_mse_condition` returns a result, its
`mse_exists` flag is exactly the decision of `0.75 < K < 4/3` for
`K = V_B / V_C`, strict on both sides — so `K` equal to `0.75` or to `4/3`
is classified as infeasible. -/
theorem mse_exists_iff_in_band (s : AnalyzerState) (r : MseResult)
    (hok : analyze_group_B_mse_condition s = .ok r) :
    r.mse_exists = decide ((3:ℚ)/4 < s.V_B / s.V_C ∧ s.V_B / s.V_C < 4/3) := by
  by_cases hvc : s.V_C = 0
  · simp [analyze_group_B_mse_condition, hvc] at hok
  · simp only [analyze_group_B_mse_condition, if_neg hvc] at hok
    split at hok
    next =>
      split at hok
      next => exact absurd hok (by simp)
      next =>
        have hr := (Except.ok.injEq _ _).mp hok
        rw [← hr]
    next =>
      have hr := (Except.ok.injEq _ _).mp hok
      rw [← hr]

/-- C1 witness: at the valid state `b1state` (values `(1, -3, -4)`, so `K`
is exactly the boundary `3/4`) the solver returns with
`mse_exists = false`. -/
theorem mse_exists_iff_in_band_witness :
    analyze_group_B_mse_condition b1state = .ok b1res ∧ b1res.mse_exists = false := by
  refine ⟨b1state_eval, ?_⟩
  have h := mse_exists_iff_in_band b1state b1res b1state_eval
  rw [h]
  simp only [b1state, defaultStateE, decide_eq_false_iff_not]
  norm_num

/-- C2 (evidence of the code bug): degenerate markets are not
short-circuited.  With `group_A_prop = 1` (a state the code's own
validation accepts, giving `n_B = 0`) both Group-B analyses raise
`ZeroDivisionError`; and with `S_B = S_C = 0`, `n_B = 7000` the MSE branch
returns payoffs 0 but a *nonzero* fraction `f = 6/11` — in neither case
the claimed trivial zero-fraction, zero-payoff result. -/
theorem degenerate_market_not_short_circuited :
    (mkState 10000 9000 1 2 (6/5) 1 (1/3) (1/3) (1/3)).2 = none
  ∧ c2state.n_B = 0
  ∧ analyze_group_B_mse_condition c2state = .error .divisionByZero
  ∧ analyze_group_B_corner_solution c2state = .error .divisionByZero
  ∧ (mkState 10000 9000 (3/10) 2 (6/5) 1 1 0 0).2 = none
  ∧ c2bstate.S_B = 0 ∧ c2bstate.S_C = 0 ∧ 0 < c2bstate.n_B
  ∧ analyze_group_B_mse_condition c2bstate = .ok c2bres
  ∧ c2bres.interior = some c2bint ∧ c2bint.f = 6/11 ∧ ((6:ℚ)/11) ≠ 0 := by
  refine ⟨by rw [c2state_valid], rfl, c2state_eval, c2state_corner_eval,
    by rw [c2bstate_valid], rfl, rfl, by norm_num [c2bstate, defaultStateE],
    c2bstate_eval, rfl, rfl, by norm_num⟩

/-- C9: `set_parameters` is not atomic on error.  An argument list whose
later key is unknown raises `ValueError` after the earlier assignment
(`V_B := 5/2`) has already persisted; likewise a value violating
`V_A > V_B > V_C` raises during re-validation with the assignment
(`V_B := 7`) persisted. -/
theorem set_parameters_not_atomic :
    (set_parameters defaultStateE
        [ParamAssign.assign_V_B (5/2), ParamAssign.unknownKey]).2
      = some Err.unknownParameter
  ∧ (set_parameters defaultStateE
        [ParamAssign.assign_V_B (5/2), ParamAssign.unknownKey]).1.V_B = 5/2
  ∧ defaultStateE.V_B = 2
  ∧ (set_parameters defaultStateE [ParamAssign.assign_V_B 7]).2
      = some Err.valueOrdering
  ∧ (set_parameters defaultStateE [ParamAssign.assign_V_B 7]).1.V_B = 7 := by
  refine ⟨rfl, rfl, rfl, ?_, ?_⟩ <;>
    · simp only [set_parameters, runAssigns, calculate_derived_quantities, defaultStateE]
      norm_num

/-- C8: every analysis operation is a pure, deterministic function of the
current analyzer state: when a call returns, the state is the one it was
called on (no attribute was mutated), and an immediately repeated call
returns the bit-identical result; the suggestion call likewise leaves the
state unchanged and repeats identically. -/
theorem analysis_ops_pure (s : AnalyzerState) (k : ℚ) :
    pureCall analyze_group_A_st s ∧ pureCall analyze_group_B_mse_condition_st s ∧
    pureCall analyze_group_B_corner_solution_st s ∧
    (suggest_value_adjustment_st s k).2 = s ∧
    suggest_value_adjustment_st ((suggest_value_adjustment_st s k).2) k
      = suggest_value_adjustment_st s k := by
  refine ⟨?_, ?_, ?_, rfl, rfl⟩
  · unfold pureCall analyze_group_A_st
    cases h : analyze_group_A s <;> simp [Except.map, h]
  · unfold pureCall analyze_group_B_mse_condition_st
    cases h : analyze_group_B_mse_condition s <;> simp [Except.map, h]
  · unfold pureCall analyze_group_B_corner_solution_st
    cases h : analyze_group_B_corner_solution s <;> simp [Except.map, h]

/-- C6: whenever `analyze_group_A` returns, the reported admission rate,
expected payoff and all-admitted flag are exactly `(1, V_A, true)` when
`n_A ≤ S_A`, and `(S_A/n_A, (S_A/n_A)·V_A, false)` otherwise. -/
theorem groupA_outcome (s : AnalyzerState) (hok : okB (analyze_group_A s) = true) :
    (analyze_group_A s).map (fun r => (r.admission_rate, r.expected_payoff, r.all_admitted))
      = .ok (if s.n_A ≤ s.S_A then ((1:ℚ), s.V_A, true)
             else ((s.S_A:ℚ)/(s.n_A:ℚ), (s.S_A:ℚ)/(s.n_A:ℚ) * s.V_A, false)) := by
  by_cases hle : s.n_A ≤ s.S_A
  · cases hms : groupAMixedAux s.S_A s.V_A s.prog_sizes s.size_dist_A with
    | error e =>
      exfalso
      have hA : analyze_group_A s = .error e := by
        simp only [analyze_group_A, if_pos hle, hms]
        rfl
      rw [hA] at hok
      simp [okB] at hok
    | ok ms =>
      have hA : analyze_group_A s = .ok
          { occupancy := .complete, admission_rate := 1, expected_payoff := s.V_A,
            mixed_strategy := some ms, all_admitted := true } := by
        simp only [analyze_group_A, if_pos hle, hms]
        rfl
      rw [hA, if_pos hle]
      rfl
  · by_cases h0 : s.n_A = 0
    · exfalso
      have hA : analyze_group_A s = .error .divisionByZero := by
        simp only [analyze_group_A, if_neg hle, if_pos h0]
      rw [hA] at hok
      simp [okB] at hok
    · have hA : analyze_group_A s = .ok
          { occupancy := .incomplete, admission_rate := (s.S_A : ℚ) / (s.n_A : ℚ),
            expected_payoff := (s.S_A : ℚ) / (s.n_A : ℚ) * s.V_A,
            mixed_strategy := none, all_admitted := false } := by
        simp only [analyze_group_A, if_neg hle, if_neg h0]
      rw [hA, if_neg hle]
      rfl

/-- C6 witness: at the default state (complete occupancy, `n_A = S_A =
3000`) the Group-A analysis returns rate 1, payoff `V_A = 3` and the flag
set. -/
theorem groupA_outcome_witness :
    okB (analyze_group_A defaultStateE) = true ∧
    (analyze_group_A defaultStateE).map
        (fun r => (r.admission_rate, r.expected_payoff, r.all_admitted))
      = .ok ((1:ℚ), 3, true) := by
  have hok : okB (analyze_group_A defaultStateE) = true := by
    rw [groupA_default_eval]
    rfl
  refine ⟨hok, ?_⟩
  have h := groupA_outcome defaultStateE hok
  rw [h]
  simp only [defaultStateE]
  norm_num

/-- C7: whenever `analyze_group_B_corner_solution` returns, the symmetric
quantities are `P_B_all = min(1, S_B/n_B)`, `E_B_all = P_B_all·V_B` (and
likewise for C), the preferred corner is the argmax of the two expected
payoffs, and an exact tie yields the indifferent / multiple-corners tags
with the admission rate and payoff reported once (as `P_B_all`,
`E_B_all = E_C_all`). -/
theorem corner_preferred_argmax (s : AnalyzerState) (r : CornerResult)
    (hok : analyze_group_B_corner_solution s = .ok r) :
    r.P_B_symmetric = min 1 ((s.S_B:ℚ)/(s.n_B:ℚ))
  ∧ r.P_C_symmetric = min 1 ((s.S_C:ℚ)/(s.n_B:ℚ))
  ∧ r.E_B_symmetric = r.P_B_symmetric * s.V_B
  ∧ r.E_C_symmetric = r.P_C_symmetric * s.V_C
  ∧ (r.E_C_symmetric < r.E_B_symmetric →
      r.preferred_corner = .typeB ∧ r.equilibrium_type = .corner_B ∧
      r.admission_rate = r.P_B_symmetric ∧ r.expected_payoff = r.E_B_symmetric)
  ∧ (r.E_B_symmetric < r.E_C_symmetric →
      r.preferred_corner = .typeC ∧ r.equilibrium_type = .corner_C ∧
      r.admission_rate = r.P_C_symmetric ∧ r.expected_payoff = r.E_C_symmetric)
  ∧ (r.E_B_symmetric = r.E_C_symmetric →
      r.preferred_corner = .indifferent ∧ r.equilibrium_type = .multiple_corners ∧
      r.admission_rate = r.P_B_symmetric ∧ r.expected_payoff = r.E_B_symmetric ∧
      r.expected_payoff = r.E_C_symmetric) := by
  by_cases hnb : s.n_B = 0
  · simp [analyze_group_B_corner_solution, hnb] at hok
  · simp only [analyze_group_B_corner_solution, if_neg hnb] at hok
    cases hta : analyze_asymmetric_threshold s with
    | error e =>
      simp [hta] at hok
    | ok ta =>
      simp only [hta] at hok
      split at hok
      next hBC =>
        have hr := (Except.ok.injEq _ _).mp hok
        subst hr
        dsimp only
        exact ⟨rfl, rfl, rfl, rfl, fun _ => ⟨rfl, rfl, rfl, rfl⟩,
          fun h => absurd h (not_lt.mpr hBC.le),
          fun h => absurd hBC (not_lt.mpr h.le)⟩
      next hBC =>
        split at hok
        next hCB =>
          have hr := (Except.ok.injEq _ _).mp hok
          subst hr
          dsimp only
          exact ⟨rfl, rfl, rfl, rfl,
            fun h => absurd h (not_lt.mpr hCB.le),
            fun _ => ⟨rfl, rfl, rfl, rfl⟩,
            fun h => absurd hCB (not_lt.mpr h.ge)⟩
        next hCB =>
          have hr := (Except.ok.injEq _ _).mp hok
          subst hr
          dsimp only
          exact ⟨rfl, rfl, rfl, rfl,
            fun h => absurd h hBC,
            fun h => absurd h hCB,
            fun _ => ⟨rfl, rfl, rfl, rfl,
              le_antisymm (not_lt.mp hBC) (not_lt.mp hCB)⟩⟩

/-- C7 witness: at `tieState` the symmetric payoffs tie exactly at `3/5`
and the evaluator reports the indifferent / multiple-corners tags with a
single rate (`3/10`) and payoff (`3/5`). -/
theorem corner_preferred_argmax_witness :
    analyze_group_B_corner_solution tieState = .ok tieRes
  ∧ tieRes.E_B_symmetric = tieRes.E_C_symmetric
  ∧ tieRes.preferred_corner = .indifferent
  ∧ tieRes.equilibrium_type = .multiple_corners
  ∧ tieRes.expected_payoff = tieRes.E_B_symmetric
  ∧ tieRes.expected_payoff = tieRes.E_C_symmetric := by
  have h := corner_preferred_argmax tieState tieRes tieState_eval
  have htie : tieRes.E_B_symmetric = tieRes.E_C_symmetric := by norm_num [tieRes]
  obtain ⟨-, -, -, -, -, -, h7⟩ := h
  obtain ⟨h1, h2, -, h4, h5⟩ := h7 htie
  exact ⟨tieState_eval, htie, h1, h2, h4, h5⟩

/-- C3 counterexample: at the valid state `c3state` the interior branch
runs, both clamps fire (final `f = 1/2`), and the reported `P_B = 6/5`
exceeds 1: the recomputed probabilities are not capped at 1.0. -/
theorem mse_reported_prob_exceeds_one :
    (mkState 40 32 (1/2) 2 (5/4) 1 (5/16) (3/8) (5/16)).2 = none
  ∧ analyze_group_B_mse_condition c3state = .ok c3res
  ∧ c3res.interior = some c3int
  ∧ c3int.P_B = 6/5
  ∧ ¬ (c3int.P_B ≤ 1) := by
  refine ⟨by rw [c3state_valid], c3state_eval, rfl, rfl, ?_⟩
  norm_num [c3int]

/-- C3 amended: in the interior branch `P_B` and `P_C` are recomputed from
the final (possibly clamped) `f` — with `0` substituted when the guard
`f > 0` resp. `f < 1` fails — and both are nonnegative; but they are not
capped at 1.0 and can exceed 1. -/
theorem mse_probs_recomputed_nonneg (s : AnalyzerState) (r : MseResult) (i : MseInterior)
    (hok : analyze_group_B_mse_condition s = .ok r) (hi : r.interior = some i)
    (hnB : 0 < s.n_B) (hSB : 0 ≤ s.S_B) (hSC : 0 ≤ s.S_C) :
    i.P_B = (if 0 < i.f then (s.S_B:ℚ) / ((s.n_B:ℚ) * i.f) else 0)
  ∧ i.P_C = (if i.f < 1 then (s.S_C:ℚ) / ((s.n_B:ℚ) * (1 - i.f)) else 0)
  ∧ 0 ≤ i.P_B ∧ 0 ≤ i.P_C := by
  obtain ⟨-, -, h1, -, hieq⟩ := mse_ok_inv hok hi
  subst hieq
  have hnBQ : (0:ℚ) < (s.n_B:ℚ) := by exact_mod_cast hnB
  have hSBQ : (0:ℚ) ≤ (s.S_B:ℚ) := by exact_mod_cast hSB
  have hSCQ : (0:ℚ) ≤ (s.S_C:ℚ) := by exact_mod_cast hSC
  refine ⟨rfl, rfl, ?_, ?_⟩
  · dsimp only [mseInterior]
    split_ifs with h
    · exact div_nonneg hSBQ (mul_pos hnBQ h).le
    · exact le_refl 0
  · dsimp only [mseInterior]
    split_ifs with h
    · exact div_nonneg hSCQ (mul_pos hnBQ (by linarith)).le
    · exact le_refl 0

/-- C3 amended, witness at `c3state`. -/
theorem mse_probs_recomputed_nonneg_witness :
    c3int.P_B = (if 0 < c3int.f then (c3state.S_B:ℚ) / ((c3state.n_B:ℚ) * c3int.f) else 0)
  ∧ c3int.P_C = (if c3int.f < 1 then (c3state.S_C:ℚ) / ((c3state.n_B:ℚ) * (1 - c3int.f)) else 0)
  ∧ 0 ≤ c3int.P_B ∧ 0 ≤ c3int.P_C :=
  mse_probs_recomputed_nonneg c3state c3res c3int c3state_eval rfl
    (by decide) (by decide) (by decide)

/-- C4 counterexample: at the valid state `c4state` the code's final
fraction is `4/5` (no lowering occurs because `P_C` computed at the raw
`f = 5/9` is `27/40 ≤ 1`), while the spec's re-evaluated check — `P_C` at
the raised `f = 4/5` is `3/2 > 1` — would lower it to `7/10`. -/
theorem clamp_order_check_at_raw_f_cex :
    (mkState 20 16 (1/2) 2 (5/4) 1 (5/16) (1/2) (3/16)).2 = none
  ∧ analyze_group_B_mse_condition c4state = .ok c4res
  ∧ c4res.interior = some c4int
  ∧ c4int.f = 4/5
  ∧ clampedF_asSpecified c4state = 7/10
  ∧ (4/5 : ℚ) ≠ 7/10 := by
  refine ⟨by rw [c4state_valid], c4state_eval, rfl, rfl, c4state_asSpecified_eval, ?_⟩
  norm_num

/-- C4 amended: the final interior fraction equals `clampedF`, in which
the `P_C > 1` test is evaluated at the original raw `f = K/(1+K)`
(computed before any clamping), not at the possibly-raised `f`. -/
theorem mse_f_clamp_checks_PC_at_raw_f (s : AnalyzerState) (r : MseResult) (i : MseInterior)
    (hok : analyze_group_B_mse_condition s = .ok r) (hi : r.interior = some i) :
    i.f = clampedF s := by
  obtain ⟨-, -, h1, -, hieq⟩ := mse_ok_inv hok hi
  subst hieq
  obtain ⟨hf0, hf1⟩ := rawF_pos_lt_one h1
  show interiorF s (s.V_B / s.V_C) = clampedF s
  simp only [interiorF, gtOne, if_pos hf0, if_pos hf1, decide_eq_true_eq]
  simp only [clampedF, rawEquilibriumF]

/-- C4 amended, witness at `c4state`. -/
theorem mse_f_clamp_checks_PC_at_raw_f_witness : c4int.f = clampedF c4state :=
  mse_f_clamp_checks_PC_at_raw_f c4state c4res c4int c4state_eval rfl

/-- C5 counterexample: at the valid state `c4state` (`S_B + S_C = 11 >
10 = n_B`) the final fraction `4/5` exceeds
`min(1, 1 - S_C/n_B) = 7/10`: the claimed interval (here empty) does not
contain it. -/
theorem clamped_f_outside_interval_cex :
    (mkState 20 16 (1/2) 2 (5/4) 1 (5/16) (1/2) (3/16)).1 = c4state
  ∧ analyze_group_B_mse_condition c4state = .ok c4res
  ∧ c4res.interior = some c4int
  ∧ ¬ (c4int.f ≤ min 1 (1 - (c4state.S_C:ℚ)/(c4state.n_B:ℚ))) := by
  refine ⟨by rw [c4state_valid], c4state_eval, rfl, ?_⟩
  simp only [c4int, c4state]
  rw [min_def]
  norm_num

/-- C5 amended: provided the seat counts are nonnegative, `n_B > 0`, and
`S_B + S_C ≤ n_B` (so `f_min ≤ f_max` and the interval is nonempty), the
final clamped `f` does lie in `[max(0, S_B/n_B), min(1, 1 - S_C/n_B)]`. -/
theorem clamped_f_in_interval (s : AnalyzerState) (r : MseResult) (i : MseInterior)
    (hok : analyze_group_B_mse_condition s = .ok r) (hi : r.interior = some i)
    (hnB : 0 < s.n_B) (hSB : 0 ≤ s.S_B) (hSC : 0 ≤ s.S_C)
    (hsum : s.S_B + s.S_C ≤ s.n_B) :
    max 0 ((s.S_B:ℚ)/(s.n_B:ℚ)) ≤ i.f ∧
      i.f ≤ min 1 (1 - (s.S_C:ℚ)/(s.n_B:ℚ)) := by
  obtain ⟨-, -, h1, -, hieq⟩ := mse_ok_inv hok hi
  subst hieq
  exact interiorF_mem h1 hnB hSB hSC hsum

/-- C5 amended, witness at `w5state` (`S_B + S_C = 8 ≤ 10 = n_B`,
`f = 6/11 ∈ [2/5, 3/5]`). -/
theorem clamped_f_in_interval_witness :
    max 0 ((w5state.S_B:ℚ)/(w5state.n_B:ℚ)) ≤ w5int.f ∧
      w5int.f ≤ min 1 (1 - (w5state.S_C:ℚ)/(w5state.n_B:ℚ)) :=
  clamped_f_in_interval w5state w5res w5int w5state_eval rfl
    (by decide) (by decide) (by decide) (by decide)

/-- C10 counterexample: at the valid state `cexC10state` (values
`(2, 1, 0)`, so `V_C = 0`, and `n_B = 7000 ≥ 2`) the asymmetric probe
still divides by zero — at the threshold ratio `V_B / V_C` — so freedom
from division by zero is not equivalent to `n_B ≥ 2`. -/
theorem threshold_divzero_despite_large_nB :
    (mkState 10000 9000 (3/10) 2 1 0 (1/3) (1/3) (1/3)).2 = none
  ∧ 2 ≤ cexC10state.n_B
  ∧ analyze_asymmetric_threshold cexC10state = .error .divisionByZero := by
  exact ⟨by rw [cexC10state_valid], by decide, cexC10state_eval⟩

/-- C10 amended: for `V_C ≠ 0` (the probe's first division is `V_B/V_C`)
and `n_B ≥ 1`, the probe is free of division by zero exactly when
`n_B ≥ 2`: then the divisors `n_B - 1`, `1`, `n_B - n_B // 2` and
`n_B // 2` are all nonzero, whereas for `n_B = 1` it divides by
`n_B - 1 = 0`. -/
theorem threshold_ok_iff_nB_ge_two (s : AnalyzerState) (hvc : s.V_C ≠ 0)
    (hnB : 1 ≤ s.n_B) :
    okB (analyze_asymmetric_threshold s) = true ↔ 2 ≤ s.n_B := by
  constructor
  · intro h
    by_contra hlt
    have h1 : s.n_B = 1 := by omega
    simp [analyze_asymmetric_threshold, okB, hvc, h1] at h
  · intro h2
    have hfd : Int.fdiv s.n_B 2 = s.n_B / 2 := Int.fdiv_eq_ediv _ (by norm_num)
    have hg1 : ¬ (s.n_B - 1 = 0) := by omega
    have hg2 : ¬ (s.n_B - Int.fdiv s.n_B 2 = 0) := by rw [hfd]; omega
    have hg3 : ¬ (Int.fdiv s.n_B 2 = 0) := by rw [hfd]; omega
    simp [analyze_asymmetric_threshold, okB, hvc, hg1, hg2, hg3]

/-- C10 amended, witness at `wit10state` (`n_B = 1`, `V_C = 1`): the probe
raises (divides by `n_B - 1 = 0`) and indeed `¬ 2 ≤ 1`. -/
theorem threshold_ok_iff_nB_ge_two_witness :
    analyze_asymmetric_threshold wit10state = .error .divisionByZero
  ∧ (okB (analyze_asymmetric_threshold wit10state) = true ↔ 2 ≤ wit10state.n_B) :=
  ⟨wit10state_eval,
    threshold_ok_iff_nB_ge_two wit10state
      (by simp only [wit10state]; norm_num) (by decide)⟩
